import Mathlib

/-!
Verification of the slot / session-pool / login layer of libp11
(`src/p11_slot.c`).

The C functions are shallowly embedded as pure Lean functions over an
explicit `SlotState`.  The external Cryptoki driver is modelled as an
oracle (`Driver`) giving the status codes and handles its entry points
would return; every driver call and cache-invalidation hook invocation
performed by an operation is recorded in an event trace (`List Ev`), so
that claims about which calls happen (and in which order) are statements
about the trace.  An operation that would block forever on the slot's
condition variable is modelled by the `CallResult.blocks` outcome.
-/

/-- Cryptoki status code `CKR_OK` (success). -/
def CKR_OK : Nat := 0

/-- Cryptoki status code `CKR_SESSION_COUNT`. -/
def CKR_SESSION_COUNT : Nat := 0xB1

/-- Cryptoki status code `CKR_USER_ALREADY_LOGGED_IN`. -/
def CKR_USER_ALREADY_LOGGED_IN : Nat := 0x100

/-- Cryptoki status code `CKR_TOKEN_NOT_PRESENT`. -/
def CKR_TOKEN_NOT_PRESENT : Nat := 0xE0

/-- Cryptoki status code `CKR_TOKEN_NOT_RECOGNIZED`. -/
def CKR_TOKEN_NOT_RECOGNIZED : Nat := 0xE1

/-- Cryptoki user type `CKU_SO` (security officer). -/
def CKU_SO : Nat := 0

/-- Cryptoki user type `CKU_USER` (normal user). -/
def CKU_USER : Nat := 1

/-- Modelled from the spec: the driver facade macro `CRYPTOKI_checkerr`
(defined in `libp11-int.h`, which is not under `src/`) "checks the return
code" and surfaces "any non-success status from the driver ... unchanged
to the caller": when the status is not `CKR_OK` the enclosing function
returns `-1` at that point. -/
def cryptokiCheckerrFails (rv : Nat) : Bool := rv ≠ CKR_OK

/-- Observable calls an operation makes: driver entry points
(`C_OpenSession`, `C_CloseAllSessions`, `C_Login`, `C_Logout`,
`C_InitPIN`, `C_SetPIN`, `C_GetTokenInfo`, `C_GetSlotInfo`) and the
cache-invalidation hook.  The hook destructors (`pkcs11_destroy_keys`,
`pkcs11_destroy_certs`) live outside `src/`; per the spec they are the
"cache-invalidation hook" consumed here, so they are recorded as opaque
events. -/
inductive Ev where
  | openSession (id : Nat) (rw : Bool)
  | closeAll (id : Nat)
  | cLogin (session userType : Nat) (pin : Option String)
  | cLogout (session : Nat)
  | destroyPrivKeys
  | destroyPubKeys
  | destroyCerts
  | cInitPIN (session : Nat) (pin : Option String)
  | cSetPIN (session : Nat) (oldPin newPin : Option String)
  | cGetTokenInfo (id : Nat)
  | cGetSlotInfo (id : Nat)
  | releaseSlot (idx : Nat)
  | freeSlotIds
  | freeSlots
  deriving DecidableEq

/-- Private per-slot state (`PKCS11_SLOT_private` plus the `slot->token`
presence bit).  `logged_in` is the C `int` field: `-1` means nobody,
otherwise it stores the `so` argument of the successful login (`0` user,
`1` security officer).  `rw_mode` is `-1` while undecided.  The session
ring `session_pool` is a list of length `session_poolsize` indexed by
`session_head`/`session_tail`. -/
structure SlotState where
  id : Nat
  logged_in : Int
  rw_mode : Int
  num_sessions : Nat
  max_sessions : Nat
  session_head : Nat
  session_tail : Nat
  session_poolsize : Nat
  session_pool : List Nat
  prev_pin : Option String
  hasToken : Bool
  deriving DecidableEq

/-- Driver oracle: the status codes (and fresh handle) the driver's entry
points return when called.  The driver is an external collaborator; a
theorem quantifying over `Driver` covers every driver outcome. -/
structure Driver where
  openRv : Nat
  openHandle : Nat
  loginRv : Nat
  logoutRv : Nat
  initPinRv : Nat
  setPinRv : Nat
  tokenInfoRv : Nat
  deriving DecidableEq

/-- Outcome of `pkcs11_get_session`: `err` is the C `return -1`;
`ok h s evs` returns handle `h` with post-state `s`; `blocked s evs` is
the path that reaches `pthread_cond_wait` (the thread suspends with the
slot state already updated to `s`, e.g. with `max_sessions` lowered). -/
inductive GetSessionResult where
  | err
  | ok (handle : Nat) (s : SlotState) (evs : List Ev)
  | blocked (s : SlotState) (evs : List Ev)
  deriving DecidableEq

/-- Mode-fixing step of `pkcs11_get_session` (src/p11_slot.c:178-179):
an undecided `rw_mode` is set to the requested mode; afterwards the
established mode is used (`rw = spriv->rw_mode`). -/
def gsFix (s : SlotState) (rw : Int) : SlotState :=
  if s.rw_mode < 0 then { s with rw_mode := rw } else s

/-- Body of the `pkcs11_get_session` acquire loop
(src/p11_slot.c:181-207) after the mode was fixed: serve from the ring
if non-empty; else open a new session if below capacity, lowering
`max_sessions` to `num_sessions` on `CKR_SESSION_COUNT`; any open
failure falls through to the condition-variable wait. -/
def gsBody (d : Driver) (s1 : SlotState) : GetSessionResult :=
  if s1.session_head ≠ s1.session_tail then
    .ok (s1.session_pool.getD s1.session_head 0)
      { s1 with session_head := (s1.session_head + 1) % s1.session_poolsize } []
  else if s1.num_sessions < s1.max_sessions then
    if d.openRv = CKR_OK then
      .ok d.openHandle { s1 with num_sessions := s1.num_sessions + 1 }
        [.openSession s1.id (decide (s1.rw_mode ≠ 0))]
    else if d.openRv = CKR_SESSION_COUNT then
      .blocked { s1 with max_sessions := s1.num_sessions }
        [.openSession s1.id (decide (s1.rw_mode ≠ 0))]
    else
      .blocked s1 [.openSession s1.id (decide (s1.rw_mode ≠ 0))]
  else
    .blocked s1 []

/-- Embedding of `pkcs11_get_session` (src/p11_slot.c:168-211): reject
`rw < 0`, fix the mode, then run the acquire loop body. -/
def pkcs11_get_session (d : Driver) (s : SlotState) (rw : Int) : GetSessionResult :=
  if rw < 0 then .err else gsBody d (gsFix s rw)

/-- Embedding of `pkcs11_put_session` (src/p11_slot.c:213-224): enqueue
the handle at the ring tail and advance the tail (the condition-variable
signal has no effect in this sequential model). -/
def pkcs11_put_session (s : SlotState) (h : Nat) : SlotState :=
  { s with
    session_pool := s.session_pool.set s.session_tail h
    session_tail := (s.session_tail + 1) % s.session_poolsize }

/-- Embedding of `pkcs11_open_session` (src/p11_slot.c:150-166): when a
different mode is requested, close all driver-side sessions and switch
`rw_mode`; in every case zero `num_sessions` and empty the ring.  The C
function always returns 0, so only the state and trace are returned. -/
def pkcs11_open_session (s : SlotState) (rw : Int) : SlotState × List Ev :=
  let p := if rw ≠ s.rw_mode then ({ s with rw_mode := rw }, [Ev.closeAll s.id]) else (s, [])
  ({ p.1 with num_sessions := 0, session_head := 0, session_tail := 0 }, p.2)

/-- Embedding of `pkcs11_is_logged_in` (src/p11_slot.c:229-235):
`*res = spriv->logged_in == so`, with the boolean role `so` passed as the
C int `0`/`1`. -/
def pkcs11_is_logged_in (s : SlotState) (so : Bool) : Bool :=
  s.logged_in = (if so then (1 : Int) else 0)

/-- Result of an operation that can block forever on the slot's
condition variable: `ret v` is a normal return, `blocks` the path where
the C thread never returns. -/
inductive CallResult (α : Type) where
  | ret (v : α)
  | blocks
  deriving DecidableEq

/-- Embedding of `pkcs11_login` (src/p11_slot.c:240-271): early success
when already logged in; otherwise borrow a session in the role's mode
(`1` for SO, `0` for user), call `C_Login`, return the session, treat
`CKR_USER_ALREADY_LOGGED_IN` as success, surface any other error before
touching `prev_pin`, then update `prev_pin` when the argument differs
and set `logged_in` to the requested role.  (The C compares the PIN
pointers for identity; here the comparison is by value, which no claim
distinguishes.)  `loginSuccState` is the slot state after the successful
tail of `pkcs11_login` (src/p11_slot.c:262-269): replace `prev_pin` when
the argument differs, then store the requested role in `logged_in`. -/
def loginSuccState (s2 : SlotState) (so : Bool) (pin : Option String) : SlotState :=
  { (if s2.prev_pin ≠ pin then { s2 with prev_pin := pin } else s2) with
    logged_in := if so then 1 else 0 }

/-- Embedding of `pkcs11_login` (src/p11_slot.c:240-271); see
`loginSuccState` for the successful tail. -/
def pkcs11_login (d : Driver) (s : SlotState) (so : Bool) (pin : Option String) :
    CallResult (Int × SlotState × List Ev) :=
  if s.logged_in ≥ 0 then .ret (0, s, [])
  else
    match pkcs11_get_session d s (if so then 1 else 0) with
    | .err => .ret (-1, s, [])
    | .blocked _ _ => .blocks
    | .ok sess s1 evs1 =>
      if d.loginRv ≠ CKR_OK ∧ d.loginRv ≠ CKR_USER_ALREADY_LOGGED_IN then
        .ret (-1, pkcs11_put_session s1 sess,
          evs1 ++ [Ev.cLogin sess (if so then CKU_SO else CKU_USER) pin])
      else
        .ret (0, loginSuccState (pkcs11_put_session s1 sess) so pin,
          evs1 ++ [Ev.cLogin sess (if so then CKU_SO else CKU_USER) pin])

/-- Embedding of `pkcs11_logout` (src/p11_slot.c:295-317): first run the
cache-invalidation hook on the token (when present); then try to borrow
a session with the current `logged_in` value as the mode — when that
fails (`logged_in = -1` trips the `rw < 0` guard) `rv` stays `CKR_OK`
and `C_Logout` is skipped; `CRYPTOKI_checkerr` surfaces a `C_Logout`
error before the `logged_in = -1` assignment is reached.
`cacheDestroyEvs` is the run of the cache-invalidation hook on the
slot's token when one is present (src/p11_slot.c:304-308, also the head
of `pkcs11_destroy_token`). -/
def cacheDestroyEvs (s : SlotState) : List Ev :=
  if s.hasToken then [.destroyPrivKeys, .destroyPubKeys, .destroyCerts] else []

/-- Embedding of `pkcs11_logout` (src/p11_slot.c:295-317); see
`cacheDestroyEvs` for the hook run. -/
def pkcs11_logout (d : Driver) (s : SlotState) : CallResult (Int × SlotState × List Ev) :=
  match pkcs11_get_session d s s.logged_in with
  | .err => .ret (0, { s with logged_in := -1 }, cacheDestroyEvs s)
  | .blocked _ _ => .blocks
  | .ok sess s1 evs1 =>
    if cryptokiCheckerrFails d.logoutRv then
      .ret (-1, pkcs11_put_session s1 sess, cacheDestroyEvs s ++ evs1 ++ [Ev.cLogout sess])
    else
      .ret (0, { pkcs11_put_session s1 sess with logged_in := -1 },
        cacheDestroyEvs s ++ evs1 ++ [Ev.cLogout sess])

/-- Embedding of `pkcs11_check_token` (src/p11_slot.c:531-588), reduced
to the state this development tracks: destroy the previous token
descriptor (running the cache-invalidation hook) or allocate a fresh
one, query `C_GetTokenInfo`, swallow `CKR_TOKEN_NOT_PRESENT` /
`CKR_TOKEN_NOT_RECOGNIZED` into an absent token, surface any other
error, and otherwise install a fresh snapshot. -/
def pkcs11_check_token (tokenInfoRv : Nat) (s : SlotState) : Int × SlotState × List Ev :=
  if tokenInfoRv = CKR_TOKEN_NOT_PRESENT ∨ tokenInfoRv = CKR_TOKEN_NOT_RECOGNIZED then
    (0, { s with hasToken := false }, cacheDestroyEvs s ++ [Ev.cGetTokenInfo s.id])
  else if cryptokiCheckerrFails tokenInfoRv then
    (-1, { s with hasToken := true }, cacheDestroyEvs s ++ [Ev.cGetTokenInfo s.id])
  else
    (0, { s with hasToken := true }, cacheDestroyEvs s ++ [Ev.cGetTokenInfo s.id])

/-- Embedding of `pkcs11_init_pin` (src/p11_slot.c:353-371): borrow a
read-write session (`rw = 1`), one `C_InitPIN` call, return the session,
surface errors, then `return pkcs11_check_token(...)` — the token IS
re-snapshotted by the function itself. -/
def pkcs11_init_pin (d : Driver) (s : SlotState) (pin : Option String) :
    CallResult (Int × SlotState × List Ev) :=
  match pkcs11_get_session d s 1 with
  | .err => .ret (-1, s, [])
  | .blocked _ _ => .blocks
  | .ok sess s1 evs1 =>
    if cryptokiCheckerrFails d.initPinRv then
      .ret (-1, pkcs11_put_session s1 sess, evs1 ++ [Ev.cInitPIN sess pin])
    else
      .ret ((pkcs11_check_token d.tokenInfoRv (pkcs11_put_session s1 sess)).1,
        (pkcs11_check_token d.tokenInfoRv (pkcs11_put_session s1 sess)).2.1,
        evs1 ++ [Ev.cInitPIN sess pin] ++
          (pkcs11_check_token d.tokenInfoRv (pkcs11_put_session s1 sess)).2.2)

/-- Embedding of `pkcs11_change_pin` (src/p11_slot.c:376-397): borrow a
read-write session (`rw = 1`), one `C_SetPIN` call, return the session,
surface errors, then `return pkcs11_check_token(...)`. -/
def pkcs11_change_pin (d : Driver) (s : SlotState) (oldPin newPin : Option String) :
    CallResult (Int × SlotState × List Ev) :=
  match pkcs11_get_session d s 1 with
  | .err => .ret (-1, s, [])
  | .blocked _ _ => .blocks
  | .ok sess s1 evs1 =>
    if cryptokiCheckerrFails d.setPinRv then
      .ret (-1, pkcs11_put_session s1 sess, evs1 ++ [Ev.cSetPIN sess oldPin newPin])
    else
      .ret ((pkcs11_check_token d.tokenInfoRv (pkcs11_put_session s1 sess)).1,
        (pkcs11_check_token d.tokenInfoRv (pkcs11_put_session s1 sess)).2.1,
        evs1 ++ [Ev.cSetPIN sess oldPin newPin] ++
          (pkcs11_check_token d.tokenInfoRv (pkcs11_put_session s1 sess)).2.2)

/-- Token descriptor fields inspected by `pkcs11_find_token`; the C
fields are the `0`/`1` flag values installed by `pkcs11_check_token`
from the driver's token-info flags, compared with the C `>`. -/
structure Token where
  initialized : Nat
  userPinSet : Nat
  loginRequired : Nat
  deriving DecidableEq

/-- Loop of `pkcs11_find_token` (src/p11_slot.c:100-123): `n` is the
current index, the accumulator is the current `best` slot (index paired
with its token), and a slot with a token replaces `best` only when
`best` is still null or all three flags are strictly greater. -/
def findTokenGo : Nat → Option (Nat × Token) → List (Option Token) → Option (Nat × Token)
  | _, best, [] => best
  | n, best, ot :: rest =>
    match ot with
    | none => findTokenGo (n + 1) best rest
    | some tok =>
      match best with
      | none => findTokenGo (n + 1) (some (n, tok)) rest
      | some (j, b) =>
        if tok.initialized > b.initialized ∧ tok.userPinSet > b.userPinSet ∧
            tok.loginRequired > b.loginRequired then
          findTokenGo (n + 1) (some (n, tok)) rest
        else
          findTokenGo (n + 1) (some (j, b)) rest

/-- Embedding of `pkcs11_find_token` (src/p11_slot.c:100-123): the slot
array is the list of each slot's optional token; the returned slot
pointer is modelled as the slot's index (with its token). -/
def pkcs11_find_token (slots : List (Option Token)) : Option (Nat × Token) :=
  findTokenGo 0 none slots

/-- Written from the spec/claim wording for `find_token`, one scan step:
a slot with no token leaves the best unchanged; the first slot with a
token becomes the best; a later slot with a token replaces the current
best only when its token's three flags
`(initialized, user_pin_set, login_required)` are each strictly greater
than the current best's. -/
def findStep (best : Option (Nat × Token)) (p : Nat × Option Token) : Option (Nat × Token) :=
  match p.2 with
  | none => best
  | some tok =>
    match best with
    | none => some (p.1, tok)
    | some (j, b) =>
      if tok.initialized > b.initialized ∧ tok.userPinSet > b.userPinSet ∧
          tok.loginRequired > b.loginRequired then
        some (p.1, tok)
      else
        some (j, b)

/-- Written from the spec/claim wording for `find_token`: scan the
indexed slots in index order folding `findStep` from no candidate; the
final best (or `none` when no slot has a token) is returned. -/
def find_token_spec (slots : List (Option Token)) : Option (Nat × Token) :=
  slots.enum.foldl findStep none

/-- Oracle for slot enumeration: results of the two `C_GetSlotList`
calls (status and the count the driver stores), the slot-id list the
second call fills in, and per-id outcomes of `C_GetSlotInfo`, token
presence, and `C_GetTokenInfo` used while constructing each slot. -/
structure EnumDriver where
  listRv1 : Nat
  nslots1 : Nat
  listRv2 : Nat
  nslots2 : Nat
  slotids : List Nat
  slotInfoRv : Nat → Nat
  tokenPresent : Nat → Bool
  tokenInfoRv : Nat → Nat

/-- Fresh private slot state as written by `pkcs11_init_slot`
(src/p11_slot.c:449-494): nobody logged in, mode undecided, 16 session
maximum with a ring of size 17. -/
def initialSlotState (id : Nat) : SlotState :=
  { id := id
    logged_in := -1
    rw_mode := -1
    num_sessions := 0
    max_sessions := 16
    session_head := 0
    session_tail := 0
    session_poolsize := 17
    session_pool := List.replicate 17 0
    prev_pin := none
    hasToken := false }

/-- Embedding of `pkcs11_init_slot` (src/p11_slot.c:449-494): query
`C_GetSlotInfo` (surfacing errors), build the fresh private state, and
when the driver reports a token present run the token check; a failing
token check unwinds the slot (closing its sessions) and fails. -/
def pkcs11_init_slot (d : EnumDriver) (id : Nat) : Option SlotState × List Ev :=
  if cryptokiCheckerrFails (d.slotInfoRv id) then (none, [Ev.cGetSlotInfo id])
  else if d.tokenPresent id then
    if (pkcs11_check_token (d.tokenInfoRv id) (initialSlotState id)).1 ≠ 0 then
      (none,
        [Ev.cGetSlotInfo id] ++
          (pkcs11_check_token (d.tokenInfoRv id) (initialSlotState id)).2.2 ++
          [Ev.closeAll id])
    else
      (some (pkcs11_check_token (d.tokenInfoRv id) (initialSlotState id)).2.1,
        [Ev.cGetSlotInfo id] ++
          (pkcs11_check_token (d.tokenInfoRv id) (initialSlotState id)).2.2)
  else (some (initialSlotState id), [Ev.cGetSlotInfo id])

/-- Result of `pkcs11_enumerate_slots`: failure (with the trace) or the
constructed slot list and count (with the trace). -/
inductive EnumResult where
  | err (evs : List Ev)
  | ok (slots : List SlotState) (count : Nat) (evs : List Ev)
  deriving DecidableEq

/-- Loop of `pkcs11_enumerate_slots` (src/p11_slot.c:77-85): construct a
slot per id; when construction fails at index `n`, release the `n`
previously constructed slots in reverse order (`while (n--) ...`), free
the id and slot allocations, and fail the whole enumeration. -/
def enumLoop (d : EnumDriver) : List Nat → Nat → List SlotState → List Ev →
    Option (List SlotState) × List Ev
  | [], _, acc, evs => (some acc, evs)
  | id :: rest, idx, acc, evs =>
    match pkcs11_init_slot d id with
    | (some s, evI) => enumLoop d rest (idx + 1) (acc ++ [s]) (evs ++ evI)
    | (none, evI) =>
      (none,
        evs ++ evI ++ ((List.range idx).reverse.map Ev.releaseSlot) ++
          [Ev.freeSlotIds, Ev.freeSlots])

/-- Word size used by the C `size_t` sizing arithmetic. -/
def UINT64 : Nat := 2 ^ 64

/-- Overflow test of src/p11_slot.c:55-56 and 65-66: compute
`alloc_size = n * k` in wrapping `size_t` arithmetic and detect overflow
by `alloc_size / k != n`. -/
def sizeOverflow (n k : Nat) : Bool := ((n * k) % UINT64) / k ≠ n

/-- Embedding of `pkcs11_enumerate_slots` (src/p11_slot.c:42-95),
parameterized by the C object sizes `szId = sizeof(CK_SLOT_ID)` and
`szSlot = sizeof(PKCS11_SLOT)`: two-phase `C_GetSlotList` (each status
checked, each count adoption followed by an overflow check on the
allocation size), then the per-id construction loop; on success the slot
list and the count are surfaced and the id buffer freed. -/
def pkcs11_enumerate_slots (d : EnumDriver) (szId szSlot : Nat) : EnumResult :=
  if cryptokiCheckerrFails d.listRv1 then .err []
  else if sizeOverflow d.nslots1 szId then .err []
  else if cryptokiCheckerrFails d.listRv2 then .err []
  else if sizeOverflow d.nslots2 szSlot then .err []
  else
    match enumLoop d (d.slotids.take d.nslots2) 0 [] [] with
    | (none, evs) => .err evs
    | (some slots, evs) => .ok slots d.nslots2 (evs ++ [Ev.freeSlotIds])

/-- Test for a `C_Login` driver call in a trace. -/
def isLoginEv : Ev → Bool
  | .cLogin _ _ _ => true
  | _ => false

/-- Number of `C_Login` driver calls in a trace. -/
def countLoginEvs (evs : List Ev) : Nat := (evs.filter isLoginEv).length

/-- Witness input for `claim_C10`. -/
def c10_s : SlotState :=
  { id := 3, logged_in := -1, rw_mode := 0, num_sessions := 1, max_sessions := 16
    session_head := 0, session_tail := 1, session_poolsize := 17
    session_pool := 7 :: List.replicate 16 0, prev_pin := none, hasToken := true }

/-- Witness driver whose every call would fail (never consulted on the
paths under test). -/
def c10_d : Driver :=
  { openRv := 5, openHandle := 9, loginRv := 5, logoutRv := 5
    initPinRv := 5, setPinRv := 5, tokenInfoRv := 5 }

/-- Witness driver for `claim_C3`: every call succeeds, fresh session
handle 5. -/
def c3_d : Driver :=
  { openRv := 0, openHandle := 5, loginRv := 0, logoutRv := 0
    initPinRv := 0, setPinRv := 0, tokenInfoRv := 0 }

/-- Witness start state for `claim_C3`: logged out, mode undecided,
empty ring of size 2. -/
def c3_s0 : SlotState :=
  { id := 0, logged_in := -1, rw_mode := -1, num_sessions := 0, max_sessions := 16
    session_head := 0, session_tail := 0, session_poolsize := 2
    session_pool := [0, 0], prev_pin := none, hasToken := false }

/-- State after the first `login` of the `claim_C3` witness. -/
def c3_s1 : SlotState :=
  { id := 0, logged_in := 0, rw_mode := 0, num_sessions := 1, max_sessions := 16
    session_head := 0, session_tail := 1, session_poolsize := 2
    session_pool := [5, 0], prev_pin := none, hasToken := false }

/-- Trace of the first `login` of the `claim_C3` witness. -/
def c3_evs : List Ev := [Ev.openSession 0 false, Ev.cLogin 5 CKU_USER none]

/-- Driver for the `claim_C4` counterexample (never actually called on
the path exercised). -/
def c4_d : Driver :=
  { openRv := 0, openHandle := 5, loginRv := 0, logoutRv := 0
    initPinRv := 0, setPinRv := 0, tokenInfoRv := 0 }

/-- Slot already logged in as security officer (`logged_in = 1`). -/
def c4_s : SlotState :=
  { id := 0, logged_in := 1, rw_mode := 0, num_sessions := 0, max_sessions := 16
    session_head := 0, session_tail := 0, session_poolsize := 2
    session_pool := [0, 0], prev_pin := none, hasToken := false }

/-- Witness post-state for `claim_C4_amended` (the `claim_C3` witness
login runs from a different start state, so the states differ in id). -/
def c4w_s0 : SlotState :=
  { id := 2, logged_in := -1, rw_mode := -1, num_sessions := 0, max_sessions := 16
    session_head := 0, session_tail := 0, session_poolsize := 2
    session_pool := [0, 0], prev_pin := none, hasToken := false }

/-- State after the witness login for `claim_C4_amended`. -/
def c4w_s1 : SlotState :=
  { id := 2, logged_in := 1, rw_mode := 1, num_sessions := 1, max_sessions := 16
    session_head := 0, session_tail := 1, session_poolsize := 2
    session_pool := [5, 0], prev_pin := none, hasToken := false }

/-- Witness driver for `claim_C9`: `C_Login` fails with
`CKR_PIN_INCORRECT` (`0xA0`). -/
def c9_d : Driver :=
  { openRv := 0, openHandle := 5, loginRv := 0xA0, logoutRv := 0
    initPinRv := 0, setPinRv := 0, tokenInfoRv := 0 }

/-- Witness start state for `claim_C9`: logged out, one pooled session
handle `7`. -/
def c9_s : SlotState :=
  { id := 1, logged_in := -1, rw_mode := 0, num_sessions := 1, max_sessions := 16
    session_head := 0, session_tail := 1, session_poolsize := 3
    session_pool := [7, 9, 0], prev_pin := none, hasToken := false }

/-- State of the `claim_C9` witness after the session borrow. -/
def c9_s1 : SlotState :=
  { id := 1, logged_in := -1, rw_mode := 0, num_sessions := 1, max_sessions := 16
    session_head := 1, session_tail := 1, session_poolsize := 3
    session_pool := [7, 9, 0], prev_pin := none, hasToken := false }

/-- Driver for the `claim_C5` witness: `C_OpenSession` rejected with
`CKR_SESSION_COUNT`. -/
def c5_d : Driver :=
  { openRv := CKR_SESSION_COUNT, openHandle := 5, loginRv := 0, logoutRv := 0
    initPinRv := 0, setPinRv := 0, tokenInfoRv := 0 }

/-- Slot with three live sessions (all checked out), empty ring, default
capacity 16. -/
def c5_s : SlotState :=
  { id := 6, logged_in := -1, rw_mode := 0, num_sessions := 3, max_sessions := 16
    session_head := 0, session_tail := 0, session_poolsize := 17
    session_pool := List.replicate 17 0, prev_pin := none, hasToken := false }

/-- Post-state of a `get_session` outcome (`none` for the `rw < 0`
failure return, which leaves no state behind). -/
def gsState : GetSessionResult → Option SlotState
  | .err => none
  | .ok _ s _ => some s
  | .blocked s _ => some s

/-- Trace of a `get_session` outcome. -/
def gsEvs : GetSessionResult → List Ev
  | .err => []
  | .ok _ _ e => e
  | .blocked _ e => e

/-- Driver for the `claim_C2` counterexample. -/
def c2_d : Driver :=
  { openRv := 0, openHandle := 5, loginRv := 0, logoutRv := 0
    initPinRv := 0, setPinRv := 0, tokenInfoRv := 0 }

/-- Slot whose mode is already fixed to read-only (`rw_mode = 0`). -/
def c2_s : SlotState :=
  { id := 4, logged_in := -1, rw_mode := 0, num_sessions := 0, max_sessions := 16
    session_head := 0, session_tail := 0, session_poolsize := 2
    session_pool := [0, 0], prev_pin := none, hasToken := false }

/-- State after the `claim_C2` counterexample call. -/
def c2_s1 : SlotState :=
  { id := 4, logged_in := -1, rw_mode := 0, num_sessions := 1, max_sessions := 16
    session_head := 0, session_tail := 0, session_poolsize := 2
    session_pool := [0, 0], prev_pin := none, hasToken := false }

/-- Driver for the `claim_C1` counterexample: `C_Logout` fails with
status 5 (`CKR_GENERAL_ERROR`). -/
def c1_d : Driver :=
  { openRv := 0, openHandle := 5, loginRv := 0, logoutRv := 5
    initPinRv := 0, setPinRv := 0, tokenInfoRv := 0 }

/-- Slot logged in as user with one pooled session handle `7`. -/
def c1_s : SlotState :=
  { id := 1, logged_in := 0, rw_mode := 0, num_sessions := 1, max_sessions := 16
    session_head := 0, session_tail := 1, session_poolsize := 3
    session_pool := [7, 0, 0], prev_pin := none, hasToken := true }

/-- State of the `claim_C1` slot after the borrow inside `logout`. -/
def c1_s1 : SlotState :=
  { id := 1, logged_in := 0, rw_mode := 0, num_sessions := 1, max_sessions := 16
    session_head := 1, session_tail := 1, session_poolsize := 3
    session_pool := [7, 0, 0], prev_pin := none, hasToken := true }

/-- State in which the `claim_C1` counterexample run of `logout`
returns. -/
def c1_sAfter : SlotState :=
  { id := 1, logged_in := 0, rw_mode := 0, num_sessions := 1, max_sessions := 16
    session_head := 1, session_tail := 2, session_poolsize := 3
    session_pool := [7, 7, 0], prev_pin := none, hasToken := true }

/-- Driver for the `claim_C1` witness: `C_Logout` succeeds. -/
def c1w_d : Driver :=
  { openRv := 0, openHandle := 5, loginRv := 0, logoutRv := 0
    initPinRv := 0, setPinRv := 0, tokenInfoRv := 0 }

/-- Witness enumeration driver: two slots, ids 10 and 11; `C_GetSlotInfo`
fails on id 11, so construction fails at position 1 after one success. -/
def c7_d : EnumDriver :=
  { listRv1 := 0, nslots1 := 2, listRv2 := 0, nslots2 := 2, slotids := [10, 11]
    slotInfoRv := fun id => if id = 11 then 5 else 0
    tokenPresent := fun _ => false
    tokenInfoRv := fun _ => 0 }

/-- Witness enumeration driver whose reported slot count overflows the
id-allocation sizing (with `sizeof(CK_SLOT_ID) = 8`). -/
def c7b_d : EnumDriver :=
  { listRv1 := 0, nslots1 := 2 ^ 61, listRv2 := 0, nslots2 := 0, slotids := []
    slotInfoRv := fun _ => 0, tokenPresent := fun _ => false, tokenInfoRv := fun _ => 0 }

/-- Driver for the `claim_C8` counterexample: every call succeeds. -/
def c8_d : Driver :=
  { openRv := 0, openHandle := 5, loginRv := 0, logoutRv := 0
    initPinRv := 0, setPinRv := 0, tokenInfoRv := 0 }

/-- SO-logged-in slot with a token, empty ring, read-write mode. -/
def c8_s : SlotState :=
  { id := 9, logged_in := 1, rw_mode := 1, num_sessions := 0, max_sessions := 16
    session_head := 0, session_tail := 0, session_poolsize := 2
    session_pool := [0, 0], prev_pin := none, hasToken := true }

/-- State of the `claim_C8` slot after the borrow inside `init_pin`. -/
def c8_s1 : SlotState :=
  { id := 9, logged_in := 1, rw_mode := 1, num_sessions := 1, max_sessions := 16
    session_head := 0, session_tail := 0, session_poolsize := 2
    session_pool := [0, 0], prev_pin := none, hasToken := true }

/-- State in which the `claim_C8` counterexample run of `init_pin`
returns. -/
def c8_s2 : SlotState :=
  { id := 9, logged_in := 1, rw_mode := 1, num_sessions := 1, max_sessions := 16
    session_head := 0, session_tail := 1, session_poolsize := 2
    session_pool := [5, 0], prev_pin := none, hasToken := true }

/-- Trace of the `claim_C8` counterexample run of `init_pin`. -/
def c8_evs : List Ev :=
  [Ev.openSession 9 true, Ev.cInitPIN 5 none, Ev.destroyPrivKeys, Ev.destroyPubKeys,
    Ev.destroyCerts, Ev.cGetTokenInfo 9]

/-- Fields of the slot untouched by the mode-fixing step. -/
lemma gsFix_fields (s : SlotState) (rw : Int) :
    (gsFix s rw).logged_in = s.logged_in ∧ (gsFix s rw).prev_pin = s.prev_pin ∧
      (gsFix s rw).id = s.id ∧ (gsFix s rw).hasToken = s.hasToken ∧
      (gsFix s rw).session_poolsize = s.session_poolsize ∧
      (gsFix s rw).session_head = s.session_head ∧
      (gsFix s rw).session_tail = s.session_tail ∧
      (gsFix s rw).session_pool = s.session_pool ∧
      (gsFix s rw).num_sessions = s.num_sessions ∧
      (gsFix s rw).max_sessions = s.max_sessions := by
  unfold gsFix; split <;> simp

/-- The mode after the fixing step. -/
lemma gsFix_rw_mode (s : SlotState) (rw : Int) :
    (gsFix s rw).rw_mode = if s.rw_mode < 0 then rw else s.rw_mode := by
  unfold gsFix; split <;> simp_all

/-- A trace produced by a successful acquire-loop body contains no
`C_Login` call (it is empty or a single `C_OpenSession`). -/
lemma gsBody_ok_no_login (d : Driver) (s1 : SlotState)
    (h : Nat) (s' : SlotState) (evs : List Ev)
    (hg : gsBody d s1 = .ok h s' evs) : countLoginEvs evs = 0 := by
  unfold gsBody at hg
  split at hg
  · cases hg; rfl
  · split at hg
    · split at hg
      · cases hg; rfl
      · split at hg <;> exact absurd hg (by simp)
    · exact absurd hg (by simp)

/-- A successful acquire-loop body changes none of the login-related
fields of the slot, nor the mode, the ring contents, the tail, or the
pool size: only `session_head` or `num_sessions` move. -/
lemma gsBody_ok_fields (d : Driver) (s1 : SlotState)
    (h : Nat) (s' : SlotState) (evs : List Ev)
    (hg : gsBody d s1 = .ok h s' evs) :
    s'.logged_in = s1.logged_in ∧ s'.prev_pin = s1.prev_pin ∧
      s'.id = s1.id ∧ s'.hasToken = s1.hasToken ∧
      s'.session_poolsize = s1.session_poolsize ∧
      s'.session_tail = s1.session_tail ∧
      s'.session_pool = s1.session_pool ∧
      s'.rw_mode = s1.rw_mode := by
  unfold gsBody at hg
  split at hg
  · cases hg; simp
  · split at hg
    · split at hg
      · cases hg; simp
      · split at hg <;> exact absurd hg (by simp)
    · exact absurd hg (by simp)

/-- A successful `pkcs11_get_session` preserves the login-related
fields, the tail, the ring contents and the pool size. -/
lemma get_session_ok_fields (d : Driver) (s : SlotState) (rw : Int)
    (h : Nat) (s' : SlotState) (evs : List Ev)
    (hg : pkcs11_get_session d s rw = .ok h s' evs) :
    s'.logged_in = s.logged_in ∧ s'.prev_pin = s.prev_pin ∧
      s'.id = s.id ∧ s'.hasToken = s.hasToken ∧
      s'.session_poolsize = s.session_poolsize ∧
      s'.session_tail = s.session_tail ∧
      s'.session_pool = s.session_pool := by
  unfold pkcs11_get_session at hg
  split at hg
  · exact absurd hg (by simp)
  · have hb := gsBody_ok_fields d (gsFix s rw) h s' evs hg
    have hf := gsFix_fields s rw
    exact ⟨hb.1.trans hf.1, hb.2.1.trans hf.2.1, hb.2.2.1.trans hf.2.2.1,
      hb.2.2.2.1.trans hf.2.2.2.1, hb.2.2.2.2.1.trans hf.2.2.2.2.1,
      hb.2.2.2.2.2.1.trans hf.2.2.2.2.2.2.1, hb.2.2.2.2.2.2.1.trans hf.2.2.2.2.2.2.2.1⟩

/-- A trace produced by a successful `pkcs11_get_session` contains no
`C_Login` call. -/
lemma get_session_ok_no_login (d : Driver) (s : SlotState) (rw : Int)
    (h : Nat) (s' : SlotState) (evs : List Ev)
    (hg : pkcs11_get_session d s rw = .ok h s' evs) : countLoginEvs evs = 0 := by
  unfold pkcs11_get_session at hg
  split at hg
  · exact absurd hg (by simp)
  · exact gsBody_ok_no_login d (gsFix s rw) h s' evs hg

/-- Returning a session moves only the ring and its tail index. -/
lemma put_session_fields (s : SlotState) (h : Nat) :
    (pkcs11_put_session s h).logged_in = s.logged_in ∧
      (pkcs11_put_session s h).prev_pin = s.prev_pin ∧
      (pkcs11_put_session s h).session_tail = (s.session_tail + 1) % s.session_poolsize ∧
      (pkcs11_put_session s h).session_pool = s.session_pool.set s.session_tail h := by
  refine ⟨rfl, rfl, rfl, rfl⟩

/-- Reading back the ring cell a handle was just stored in yields that
handle. -/
lemma getD_set_self : ∀ (l : List Nat) (i v : Nat), i < l.length →
    (l.set i v).getD i 0 = v
  | [], i, v, h => absurd h (by simp)
  | _ :: _, 0, v, _ => rfl
  | _ :: l, i + 1, v, h => getD_set_self l i v (by simpa using h)

/-- Claim C10: calling `logout` while nobody is logged in still runs the
three cache destructors on the token, never reaches the driver's
`C_Logout` (the session borrow uses the invalid mode `-1` and fails the
`rw < 0` guard of `get_session`), and returns success with `logged_in`
still `-1` and the rest of the state untouched. -/
theorem claim_C10 (d : Driver) (s : SlotState)
    (h : s.logged_in = -1) (ht : s.hasToken = true) :
    pkcs11_logout d s =
      .ret (0, s, [Ev.destroyPrivKeys, Ev.destroyPubKeys, Ev.destroyCerts]) := by
  have h' : s.logged_in < 0 := by omega
  unfold pkcs11_logout
  simp only [pkcs11_get_session, if_pos h', ht, if_true]
  cases s
  simp_all [cacheDestroyEvs]

/-- Witness for `claim_C10` at a concrete logged-out slot. -/
theorem claim_C10_witness :
    pkcs11_logout c10_d c10_s =
      .ret (0, c10_s, [Ev.destroyPrivKeys, Ev.destroyPubKeys, Ev.destroyCerts]) :=
  claim_C10 c10_d c10_s rfl rfl

/-- Counting `C_Login` calls distributes over trace concatenation. -/
lemma countLoginEvs_append (a b : List Ev) :
    countLoginEvs (a ++ b) = countLoginEvs a + countLoginEvs b := by
  simp [countLoginEvs, List.filter_append]

/-- The state after a successful login stores the requested role. -/
lemma loginSuccState_logged_in (s2 : SlotState) (so : Bool) (pin : Option String) :
    (loginSuccState s2 so pin).logged_in = if so then 1 else 0 := rfl

/-- Unfolding of `pkcs11_login` when the session borrow succeeds. -/
lemma pkcs11_login_ok (d : Driver) (s : SlotState) (so : Bool) (pin : Option String)
    (sess : Nat) (sg : SlotState) (evg : List Ev)
    (h0 : ¬ s.logged_in ≥ 0)
    (hgs : pkcs11_get_session d s (if so then 1 else 0) = .ok sess sg evg) :
    pkcs11_login d s so pin =
      if d.loginRv ≠ CKR_OK ∧ d.loginRv ≠ CKR_USER_ALREADY_LOGGED_IN then
        .ret (-1, pkcs11_put_session sg sess,
          evg ++ [Ev.cLogin sess (if so then CKU_SO else CKU_USER) pin])
      else
        .ret (0, loginSuccState (pkcs11_put_session sg sess) so pin,
          evg ++ [Ev.cLogin sess (if so then CKU_SO else CKU_USER) pin]) := by
  unfold pkcs11_login
  rw [if_neg h0, hgs]

/-- Unfolding of `pkcs11_login` when the session borrow blocks. -/
lemma pkcs11_login_blocked (d : Driver) (s : SlotState) (so : Bool) (pin : Option String)
    (sb : SlotState) (evb : List Ev)
    (h0 : ¬ s.logged_in ≥ 0)
    (hgs : pkcs11_get_session d s (if so then 1 else 0) = .blocked sb evb) :
    pkcs11_login d s so pin = .blocks := by
  unfold pkcs11_login
  rw [if_neg h0, hgs]

/-- Claim C3: whenever somebody is already logged in (`logged_in ≥ 0`),
`login` returns success immediately, with no driver call (empty trace)
and no state change, regardless of the requested role or PIN; and for
two consecutive `login` calls with the same `(so, pin)` starting from
the logged-out state whose first call returns success, the first call
performs exactly one driver `C_Login` and the second performs none,
returning success and leaving the state unchanged — one driver login in
total. -/
theorem claim_C3 :
    (∀ (d : Driver) (s : SlotState) (so : Bool) (pin : Option String),
        0 ≤ s.logged_in → pkcs11_login d s so pin = .ret (0, s, [])) ∧
    (∀ (d : Driver) (s : SlotState) (so : Bool) (pin : Option String)
        (s1 : SlotState) (evs1 : List Ev),
        s.logged_in < 0 → pkcs11_login d s so pin = .ret (0, s1, evs1) →
        countLoginEvs evs1 = 1 ∧ pkcs11_login d s1 so pin = .ret (0, s1, [])) := by
  constructor
  · intro d s so pin h
    unfold pkcs11_login
    rw [if_pos h]
  · intro d s so pin s1 evs1 h0 hr
    have hn : ¬ s.logged_in ≥ 0 := by omega
    rcases hgs : pkcs11_get_session d s (if so then 1 else 0) with _ | ⟨sess, sg, evg⟩ | ⟨sb, evb⟩
    · unfold pkcs11_login at hr
      rw [if_neg hn, hgs] at hr
      simp at hr
    · rw [pkcs11_login_ok d s so pin sess sg evg hn hgs] at hr
      split at hr
      · simp at hr
      · simp only [CallResult.ret.injEq, Prod.mk.injEq] at hr
        obtain ⟨-, hs1, hevs⟩ := hr
        subst hs1 hevs
        constructor
        · have hzero := get_session_ok_no_login d s _ sess sg evg hgs
          rw [countLoginEvs_append, hzero]
          rfl
        · unfold pkcs11_login
          rw [if_pos]
          rw [loginSuccState_logged_in]
          cases so <;> norm_num
    · rw [pkcs11_login_blocked d s so pin sb evb hn hgs] at hr
      simp at hr

/-- Witness for `claim_C3`: a concrete first login makes one `C_Login`
and the repeated identical login makes none. -/
theorem claim_C3_witness :
    countLoginEvs c3_evs = 1 ∧ pkcs11_login c3_d c3_s1 false none = .ret (0, c3_s1, []) :=
  claim_C3.2 c3_d c3_s0 false none c3_s1 c3_evs (by decide) (by decide)

/-- Counterexample to claim C4 as stated: on a slot already logged in as
the security officer, `login(slot, user, pin)` returns success (the
idempotent early return), yet `is_logged_in(slot, user)` is false — so
"after `login(slot, so, pin)` returns success, `is_logged_in(slot, so)`
reports true" fails for every slot and role. -/
theorem claim_C4_counterexample :
    pkcs11_login c4_d c4_s false none = .ret (0, c4_s, []) ∧
      pkcs11_is_logged_in c4_s false = false ∧ c4_s.logged_in ≠ -1 := by
  refine ⟨rfl, rfl, by decide⟩

/-- Claim C4, amended: for a slot whose `login_state` is `None` when
`login(slot, so, pin)` is called, a successful return leaves
`is_logged_in(slot, so)` true and `is_logged_in(slot, !so)` false —
`is_logged_in` compares `login_state` with the specific requested role.
(The amendment adds the logged-out precondition, forced by the
idempotent early return of `login` when some other role is already
logged in.) -/
theorem claim_C4_amended (d : Driver) (s : SlotState) (so : Bool) (pin : Option String)
    (s' : SlotState) (evs : List Ev)
    (h0 : s.logged_in < 0)
    (hr : pkcs11_login d s so pin = .ret (0, s', evs)) :
    pkcs11_is_logged_in s' so = true ∧ pkcs11_is_logged_in s' (!so) = false := by
  have hn : ¬ s.logged_in ≥ 0 := by omega
  rcases hgs : pkcs11_get_session d s (if so then 1 else 0) with _ | ⟨sess, sg, evg⟩ | ⟨sb, evb⟩
  · unfold pkcs11_login at hr
    rw [if_neg hn, hgs] at hr
    simp at hr
  · rw [pkcs11_login_ok d s so pin sess sg evg hn hgs] at hr
    split at hr
    · simp at hr
    · simp only [CallResult.ret.injEq, Prod.mk.injEq] at hr
      obtain ⟨-, hs1, -⟩ := hr
      subst hs1
      cases so <;>
        simp [pkcs11_is_logged_in, loginSuccState_logged_in]
  · rw [pkcs11_login_blocked d s so pin sb evb hn hgs] at hr
    simp at hr

/-- Witness for `claim_C4_amended`: a concrete SO login from the
logged-out state. -/
theorem claim_C4_witness :
    pkcs11_is_logged_in c4w_s1 true = true ∧ pkcs11_is_logged_in c4w_s1 (!true) = false :=
  claim_C4_amended c4_d c4w_s0 true none c4w_s1
    [Ev.openSession 2 true, Ev.cLogin 5 CKU_SO none] (by decide) (by decide)

/-- Claim C9: when the driver's `C_Login` fails with any status other
than `CKR_OK` or `CKR_USER_ALREADY_LOGGED_IN`, `login` returns failure;
`logged_in` is still `-1`, `prev_pin` is untouched (the error is
surfaced before the PIN-duplication code runs), and the borrowed session
is back in the pool (it sits in the ring cell at the old tail) when the
error is returned. -/
theorem claim_C9 (d : Driver) (s : SlotState) (so : Bool) (pin : Option String)
    (sess : Nat) (s1 : SlotState) (evs1 : List Ev)
    (h0 : s.logged_in = -1)
    (hg : pkcs11_get_session d s (if so then 1 else 0) = .ok sess s1 evs1)
    (hrv1 : d.loginRv ≠ CKR_OK) (hrv2 : d.loginRv ≠ CKR_USER_ALREADY_LOGGED_IN)
    (htail : s1.session_tail < s1.session_pool.length) :
    pkcs11_login d s so pin =
        .ret (-1, pkcs11_put_session s1 sess,
          evs1 ++ [Ev.cLogin sess (if so then CKU_SO else CKU_USER) pin]) ∧
      (pkcs11_put_session s1 sess).logged_in = -1 ∧
      (pkcs11_put_session s1 sess).prev_pin = s.prev_pin ∧
      (pkcs11_put_session s1 sess).session_pool.getD s1.session_tail 0 = sess := by
  have hf := get_session_ok_fields d s _ sess s1 evs1 hg
  refine ⟨?_, ?_, ?_, ?_⟩
  · rw [pkcs11_login_ok d s so pin sess s1 evs1 (by omega) hg]
    exact if_pos ⟨hrv1, hrv2⟩
  · show s1.logged_in = -1
    rw [hf.1, h0]
  · show s1.prev_pin = s.prev_pin
    exact hf.2.1
  · exact getD_set_self _ _ _ htail

/-- Mode-fixing leaves the slot untouched when the mode is decided. -/
lemma gsFix_of_nonneg (s : SlotState) (rw : Int) (h : 0 ≤ s.rw_mode) : gsFix s rw = s := by
  unfold gsFix
  rw [if_neg (by omega)]

/-- Mode-fixing does not change `session_head`. -/
lemma gsFix_head (s : SlotState) (rw : Int) : (gsFix s rw).session_head = s.session_head := by
  unfold gsFix; split <;> rfl

/-- Mode-fixing does not change `session_tail`. -/
lemma gsFix_tail (s : SlotState) (rw : Int) : (gsFix s rw).session_tail = s.session_tail := by
  unfold gsFix; split <;> rfl

/-- Mode-fixing does not change `session_poolsize`. -/
lemma gsFix_poolsize (s : SlotState) (rw : Int) :
    (gsFix s rw).session_poolsize = s.session_poolsize := by
  unfold gsFix; split <;> rfl

/-- Mode-fixing does not change the ring contents. -/
lemma gsFix_pool (s : SlotState) (rw : Int) :
    (gsFix s rw).session_pool = s.session_pool := by
  unfold gsFix; split <;> rfl

/-- Mode-fixing does not change `num_sessions`. -/
lemma gsFix_num (s : SlotState) (rw : Int) :
    (gsFix s rw).num_sessions = s.num_sessions := by
  unfold gsFix; split <;> rfl

/-- Mode-fixing does not change `max_sessions`. -/
lemma gsFix_max (s : SlotState) (rw : Int) :
    (gsFix s rw).max_sessions = s.max_sessions := by
  unfold gsFix; split <;> rfl

/-- Mode-fixing does not change the slot id. -/
lemma gsFix_id (s : SlotState) (rw : Int) : (gsFix s rw).id = s.id := by
  unfold gsFix; split <;> rfl

/-- The acquire-loop body serves the ring head when the ring is
non-empty. -/
lemma gsBody_pool_hit (d : Driver) (s1 : SlotState)
    (hne : s1.session_head ≠ s1.session_tail) :
    gsBody d s1 =
      .ok (s1.session_pool.getD s1.session_head 0)
        { s1 with session_head := (s1.session_head + 1) % s1.session_poolsize } [] := by
  unfold gsBody
  rw [if_pos hne]

/-- Advancing a ring index by one never returns to the same cell when
the ring has at least two cells. -/
lemma succ_mod_ne (t p : Nat) (h2 : 2 ≤ p) (ht : t < p) : (t + 1) % p ≠ t := by
  intro he
  rcases Nat.lt_or_ge (t + 1) p with hlt | hge
  · rw [Nat.mod_eq_of_lt hlt] at he
    omega
  · have hp : t + 1 = p := by omega
    rw [hp, Nat.mod_self] at he
    omega

/-- Claim C5: when the ring is empty, the pool is below capacity, and
the driver rejects the `C_OpenSession` with `CKR_SESSION_COUNT`, the
error is not surfaced: `get_session` reaches the condition-variable wait
(outcome `blocked`, not `err`) in a state whose `max_sessions` has been
revised down to the current `num_sessions`; and once any handle `h` is
released into the pool, the retry succeeds, returning exactly `h`, with
`max_sessions` still at the revised value. -/
theorem claim_C5 (d : Driver) (s : SlotState) (rw : Int)
    (hrw : 0 ≤ rw)
    (hempty : s.session_head = s.session_tail)
    (hcap : s.num_sessions < s.max_sessions)
    (hrv : d.openRv = CKR_SESSION_COUNT)
    (hps : 2 ≤ s.session_poolsize)
    (htail : s.session_tail < s.session_poolsize)
    (hlen : s.session_pool.length = s.session_poolsize) :
    pkcs11_get_session d s rw =
        .blocked { gsFix s rw with max_sessions := s.num_sessions }
          [Ev.openSession s.id (decide ((gsFix s rw).rw_mode ≠ 0))] ∧
      ({ gsFix s rw with max_sessions := s.num_sessions } : SlotState).max_sessions =
        s.num_sessions ∧
      (∀ h : Nat,
        pkcs11_get_session d
            (pkcs11_put_session { gsFix s rw with max_sessions := s.num_sessions } h) rw =
          .ok h
            { pkcs11_put_session { gsFix s rw with max_sessions := s.num_sessions } h with
              session_head := (s.session_head + 1) % s.session_poolsize } [] ∧
        (pkcs11_put_session { gsFix s rw with max_sessions := s.num_sessions } h).max_sessions =
          s.num_sessions) := by
  have hrvno : ¬ d.openRv = CKR_OK := by
    rw [hrv]
    decide
  refine ⟨?_, rfl, ?_⟩
  · unfold pkcs11_get_session gsBody
    rw [if_neg (by omega)]
    rw [if_neg (by rw [gsFix_head, gsFix_tail]; simpa using hempty)]
    rw [if_pos (by rw [gsFix_num, gsFix_max]; exact hcap)]
    rw [if_neg hrvno, if_pos hrv]
    simp [gsFix_num, gsFix_id]
  · intro h
    refine ⟨?_, rfl⟩
    have hPrw : (0 : Int) ≤
        (pkcs11_put_session { gsFix s rw with max_sessions := s.num_sessions } h).rw_mode := by
      show (0 : Int) ≤ (gsFix s rw).rw_mode
      rw [gsFix_rw_mode]
      split <;> omega
    unfold pkcs11_get_session
    rw [if_neg (by omega)]
    rw [gsFix_of_nonneg _ _ hPrw]
    rw [gsBody_pool_hit d _ ?hnonempty]
    case hnonempty =>
      show (gsFix s rw).session_head ≠
        ((gsFix s rw).session_tail + 1) % (gsFix s rw).session_poolsize
      rw [gsFix_head, gsFix_tail, gsFix_poolsize, hempty]
      exact Ne.symm (succ_mod_ne s.session_tail s.session_poolsize hps htail)
    have e1 : ((gsFix s rw).session_pool.set (gsFix s rw).session_tail h).getD
        (gsFix s rw).session_head 0 = h := by
      rw [gsFix_pool, gsFix_tail, gsFix_head, hempty]
      exact getD_set_self _ _ _ (by omega)
    show GetSessionResult.ok
        (((gsFix s rw).session_pool.set (gsFix s rw).session_tail h).getD
          (gsFix s rw).session_head 0) _ [] = _
    rw [e1]
    show GetSessionResult.ok h
        { pkcs11_put_session { gsFix s rw with max_sessions := s.num_sessions } h with
          session_head :=
            ((gsFix s rw).session_head + 1) % (gsFix s rw).session_poolsize } [] = _
    rw [gsFix_head, gsFix_poolsize]

/-- Witness for `claim_C5`: with `live_count = 3` at the rejection,
`max_sessions` becomes 3, the caller blocks, and after handle `11` is
released the retry obtains exactly `11`. -/
theorem claim_C5_witness :
    pkcs11_get_session c5_d c5_s 0 =
        .blocked { gsFix c5_s 0 with max_sessions := c5_s.num_sessions }
          [Ev.openSession c5_s.id (decide ((gsFix c5_s 0).rw_mode ≠ 0))] ∧
      pkcs11_get_session c5_d
          (pkcs11_put_session { gsFix c5_s 0 with max_sessions := c5_s.num_sessions } 11) 0 =
        .ok 11
          { pkcs11_put_session { gsFix c5_s 0 with max_sessions := c5_s.num_sessions } 11 with
            session_head := (c5_s.session_head + 1) % c5_s.session_poolsize } [] :=
  ⟨(claim_C5 c5_d c5_s 0 (by decide) rfl (by decide) rfl (by decide) (by decide) rfl).1,
    ((claim_C5 c5_d c5_s 0 (by decide) rfl (by decide) rfl (by decide) (by decide) rfl).2.2
      11).1⟩

/-- The acquire-loop body always leaves a state behind and never changes
the established mode. -/
lemma gsBody_state_rw_mode (d : Driver) (s1 : SlotState) :
    ∃ s' : SlotState, gsState (gsBody d s1) = some s' ∧ s'.rw_mode = s1.rw_mode := by
  unfold gsBody
  split
  · exact ⟨_, rfl, rfl⟩
  · split
    · split
      · exact ⟨_, rfl, rfl⟩
      · split
        · exact ⟨_, rfl, rfl⟩
        · exact ⟨_, rfl, rfl⟩
    · exact ⟨_, rfl, rfl⟩

/-- The acquire-loop body never calls `C_CloseAllSessions`. -/
lemma gsBody_no_closeAll (d : Driver) (s1 : SlotState) (i : Nat) :
    Ev.closeAll i ∉ gsEvs (gsBody d s1) := by
  unfold gsBody
  split
  · simp [gsEvs]
  · split
    · split
      · simp [gsEvs]
      · split <;> simp [gsEvs]
    · simp [gsEvs]

/-- Counterexample to claim C2 as stated: a `get_session` (acquire)
requesting read-write (`rw = 1`) on a slot whose mode is already fixed
to read-only does NOT close the driver-side sessions or zero the pool —
it silently opens a read-only session (`C_OpenSession` flag bit false)
and proceeds in the old mode: the resulting state still has
`rw_mode = 0` and `num_sessions = 1`, and no `C_CloseAllSessions` was
issued. -/
theorem claim_C2_counterexample :
    pkcs11_get_session c2_d c2_s 1 = .ok 5 c2_s1 [Ev.openSession 4 false] ∧
      c2_s1.rw_mode = 0 ∧ c2_s1.num_sessions = 1 ∧
      Ev.closeAll 4 ∉ [Ev.openSession 4 false] := by
  refine ⟨by decide, by decide, by decide, by decide⟩

/-- Claim C2, amended: the first `get_session` on an `Undecided` slot
(`rw_mode < 0`) fixes the slot's mode to the requested mode; a
subsequent `get_session` requesting a differing mode ignores the request
and proceeds in the established mode without closing any session; it is
the separate public `open_session` operation that, on a differing mode,
closes all driver-side sessions, zeros the pool bookkeeping
(`num_sessions = 0`, ring emptied), and switches to the newly requested
mode. -/
theorem claim_C2_amended :
    (∀ (d : Driver) (s : SlotState) (rw : Int), 0 ≤ rw → s.rw_mode < 0 →
      ∃ s' : SlotState, gsState (pkcs11_get_session d s rw) = some s' ∧ s'.rw_mode = rw) ∧
    (∀ (d : Driver) (s : SlotState) (rw : Int), 0 ≤ rw → 0 ≤ s.rw_mode →
      (∃ s' : SlotState,
          gsState (pkcs11_get_session d s rw) = some s' ∧ s'.rw_mode = s.rw_mode) ∧
        ∀ i : Nat, Ev.closeAll i ∉ gsEvs (pkcs11_get_session d s rw)) ∧
    (∀ (s : SlotState) (rw : Int), rw ≠ s.rw_mode →
      pkcs11_open_session s rw =
        ({ s with rw_mode := rw, num_sessions := 0, session_head := 0, session_tail := 0 },
          [Ev.closeAll s.id])) := by
  refine ⟨?_, ?_, ?_⟩
  · intro d s rw hrw hm
    obtain ⟨s', h1, h2⟩ := gsBody_state_rw_mode d (gsFix s rw)
    refine ⟨s', ?_, ?_⟩
    · unfold pkcs11_get_session
      rw [if_neg (by omega)]
      exact h1
    · rw [h2, gsFix_rw_mode, if_pos hm]
  · intro d s rw hrw hm
    constructor
    · obtain ⟨s', h1, h2⟩ := gsBody_state_rw_mode d (gsFix s rw)
      refine ⟨s', ?_, ?_⟩
      · unfold pkcs11_get_session
        rw [if_neg (by omega)]
        exact h1
      · rw [h2, gsFix_rw_mode, if_neg (by omega)]
    · intro i
      unfold pkcs11_get_session
      rw [if_neg (by omega)]
      exact gsBody_no_closeAll d (gsFix s rw) i
  · intro s rw h
    simp [pkcs11_open_session, h]

/-- Witness for `claim_C2_amended` at concrete slots: an undecided slot
adopts the requested mode, a read-only slot ignores a read-write
request while issuing no `C_CloseAllSessions`, and `open_session` with
the differing mode flushes and switches. -/
theorem claim_C2_witness :
    (∃ s' : SlotState, gsState (pkcs11_get_session c2_d c3_s0 1) = some s' ∧ s'.rw_mode = 1) ∧
      ((∃ s' : SlotState,
          gsState (pkcs11_get_session c2_d c2_s 1) = some s' ∧ s'.rw_mode = c2_s.rw_mode) ∧
        ∀ i : Nat, Ev.closeAll i ∉ gsEvs (pkcs11_get_session c2_d c2_s 1)) ∧
      pkcs11_open_session c2_s 1 =
        ({ c2_s with rw_mode := 1, num_sessions := 0, session_head := 0, session_tail := 0 },
          [Ev.closeAll c2_s.id]) :=
  ⟨claim_C2_amended.1 c2_d c3_s0 1 (by decide) (by decide),
    claim_C2_amended.2.1 c2_d c2_s 1 (by decide) (by decide),
    claim_C2_amended.2.2 c2_s 1 (by decide)⟩

/-- Unfolding of `pkcs11_logout` when the session borrow succeeds. -/
lemma pkcs11_logout_ok (d : Driver) (s : SlotState)
    (sess : Nat) (s1 : SlotState) (evs1 : List Ev)
    (hg : pkcs11_get_session d s s.logged_in = .ok sess s1 evs1) :
    pkcs11_logout d s =
      if cryptokiCheckerrFails d.logoutRv then
        .ret (-1, pkcs11_put_session s1 sess, cacheDestroyEvs s ++ evs1 ++ [Ev.cLogout sess])
      else
        .ret (0, { pkcs11_put_session s1 sess with logged_in := -1 },
          cacheDestroyEvs s ++ evs1 ++ [Ev.cLogout sess]) := by
  unfold pkcs11_logout
  rw [hg]

/-- The driver facade check passes on `CKR_OK`. -/
lemma checkerr_CKR_OK : cryptokiCheckerrFails CKR_OK = false := rfl

/-- Counterexample to claim C1 as stated: when the driver's `C_Logout`
fails, `logout` surfaces the error (returns `-1`) but `logged_in` is
NOT reset to `-1` — `CRYPTOKI_checkerr` returns before the assignment —
so a subsequent `is_logged_in(slot, user)` still reports true. -/
theorem claim_C1_counterexample :
    pkcs11_logout c1_d c1_s =
        .ret (-1, c1_sAfter,
          [Ev.destroyPrivKeys, Ev.destroyPubKeys, Ev.destroyCerts, Ev.cLogout 7]) ∧
      pkcs11_is_logged_in c1_sAfter false = true ∧ c1_sAfter.logged_in ≠ -1 := by
  refine ⟨by decide, rfl, by decide⟩

/-- Claim C1, amended: `logout` always runs the cache destructors first;
when the session borrow succeeds it calls the driver's `C_Logout` once
(no retry).  On `C_Logout` success `logged_in` is set to `-1`; on
`C_Logout` failure the error is surfaced with `logged_in` left at its
previous value (the spec's "set to `None` on both paths" holds only for
the success path and for the borrow-failure path, where the driver call
is skipped and `logged_in` is still cleared). -/
theorem claim_C1_amended (d : Driver) (s : SlotState)
    (sess : Nat) (s1 : SlotState) (evs1 : List Ev)
    (hg : pkcs11_get_session d s s.logged_in = .ok sess s1 evs1) :
    (d.logoutRv = CKR_OK →
      pkcs11_logout d s =
        .ret (0, { pkcs11_put_session s1 sess with logged_in := -1 },
          cacheDestroyEvs s ++ evs1 ++ [Ev.cLogout sess])) ∧
    (d.logoutRv ≠ CKR_OK →
      pkcs11_logout d s =
          .ret (-1, pkcs11_put_session s1 sess,
            cacheDestroyEvs s ++ evs1 ++ [Ev.cLogout sess]) ∧
        (pkcs11_put_session s1 sess).logged_in = s.logged_in) ∧
    (∀ s0 : SlotState, s0.logged_in < 0 →
      pkcs11_logout d s0 = .ret (0, { s0 with logged_in := -1 }, cacheDestroyEvs s0)) := by
  refine ⟨?_, ?_, ?_⟩
  · intro h
    have hc : cryptokiCheckerrFails d.logoutRv = false := by
      simp [cryptokiCheckerrFails, h]
    rw [pkcs11_logout_ok d s sess s1 evs1 hg, hc]
    simp
  · intro h
    have hc : cryptokiCheckerrFails d.logoutRv = true := by
      simp [cryptokiCheckerrFails, h]
    constructor
    · rw [pkcs11_logout_ok d s sess s1 evs1 hg, hc]
      simp
    · show s1.logged_in = s.logged_in
      exact (get_session_ok_fields d s s.logged_in sess s1 evs1 hg).1
  · intro s0 h0
    unfold pkcs11_logout
    simp only [pkcs11_get_session, if_pos h0]

/-- Witness for `claim_C1_amended`: a concrete successful logout clears
`logged_in`. -/
theorem claim_C1_witness :
    pkcs11_logout c1w_d c1_s =
      .ret (0, { pkcs11_put_session c1_s1 7 with logged_in := -1 },
        cacheDestroyEvs c1_s ++ [] ++ [Ev.cLogout 7]) :=
  (claim_C1_amended c1w_d c1_s 7 c1_s1 [] (by decide)).1 rfl

/-- Witness for `claim_C9` at a concrete failing user login. -/
theorem claim_C9_witness :
    pkcs11_login c9_d c9_s false none =
        .ret (-1, pkcs11_put_session c9_s1 7, [Ev.cLogin 7 CKU_USER none]) ∧
      (pkcs11_put_session c9_s1 7).logged_in = -1 ∧
      (pkcs11_put_session c9_s1 7).prev_pin = c9_s.prev_pin ∧
      (pkcs11_put_session c9_s1 7).session_pool.getD c9_s1.session_tail 0 = 7 :=
  claim_C9 c9_d c9_s false none 7 c9_s1 [] (by decide) (by decide) (by decide) (by decide)
    (by decide)

/-- The C scan loop agrees with the spec-side fold at every start index
and accumulator. -/
lemma findTokenGo_eq_foldl (l : List (Option Token)) :
    ∀ (n : Nat) (best : Option (Nat × Token)),
      findTokenGo n best l = (List.enumFrom n l).foldl findStep best := by
  induction l with
  | nil => intro n best; rfl
  | cons ot rest ih =>
    intro n best
    cases ot with
    | none =>
      simp only [findTokenGo, List.enumFrom, List.foldl_cons, findStep]
      exact ih (n + 1) best
    | some tok =>
      cases best with
      | none =>
        simp only [findTokenGo, List.enumFrom, List.foldl_cons, findStep]
        exact ih (n + 1) (some (n, tok))
      | some jb =>
        obtain ⟨j, b⟩ := jb
        by_cases hd : tok.initialized > b.initialized ∧ tok.userPinSet > b.userPinSet ∧
            tok.loginRequired > b.loginRequired
        · simp only [findTokenGo, List.enumFrom, List.foldl_cons, findStep, if_pos hd]
          exact ih (n + 1) (some (n, tok))
        · simp only [findTokenGo, List.enumFrom, List.foldl_cons, findStep, if_neg hd]
          exact ih (n + 1) (some (j, b))

/-- Claim C6: `pkcs11_find_token` computes exactly the spec's described
scan — index order, first slot with a token becomes the best, a later
token replaces the best only when all three flags are strictly greater,
final best (or `none` when no slot has a token) returned. -/
theorem claim_C6 : ∀ slots : List (Option Token), pkcs11_find_token slots = find_token_spec slots := by
  intro slots
  unfold pkcs11_find_token find_token_spec
  exact findTokenGo_eq_foldl slots 0 none

/-- Without overflow, the C sizing check passes: the wrapped product
divided back by the element size recovers the count. -/
lemma sizeOverflow_of_lt (n k : Nat) (hk : k ≠ 0) (h : n * k < UINT64) :
    sizeOverflow n k = false := by
  unfold sizeOverflow
  rw [Nat.mod_eq_of_lt h, Nat.mul_div_cancel _ (Nat.pos_of_ne_zero hk)]
  simp

/-- With overflow, the C sizing check fires: the wrapped product divided
back by the element size falls short of the count. -/
lemma sizeOverflow_of_ge (n k : Nat) (hk : k ≠ 0) (h : UINT64 ≤ n * k) :
    sizeOverflow n k = true := by
  have hpos : 0 < k := Nat.pos_of_ne_zero hk
  have halloc : (n * k) % UINT64 < UINT64 := Nat.mod_lt _ (by norm_num [UINT64])
  have hlt : (n * k) % UINT64 / k < n := by
    rw [Nat.div_lt_iff_lt_mul hpos]
    exact lt_of_lt_of_le halloc h
  unfold sizeOverflow
  simp only [ne_eq, decide_eq_true_eq]
  exact Nat.ne_of_lt hlt

/-- When slot construction first fails at position `j`, the enumeration
loop fails as a whole, releasing the `j` already-constructed slots in
reverse index order and freeing both allocations. -/
lemma enumLoop_fail (d : EnumDriver) :
    ∀ (j : Nat) (ids : List Nat) (idx : Nat) (acc : List SlotState) (evs : List Ev),
      j < ids.length →
      (∀ i, i < j → ((pkcs11_init_slot d (ids.getD i 0)).1).isSome) →
      (pkcs11_init_slot d (ids.getD j 0)).1 = none →
      ∃ pre, enumLoop d ids idx acc evs =
        (none, pre ++ ((List.range (idx + j)).reverse.map Ev.releaseSlot) ++
          [Ev.freeSlotIds, Ev.freeSlots]) := by
  intro j
  induction j with
  | zero =>
    intro ids idx acc evs hlen hok hfail
    match ids, hlen with
    | i0 :: rest, _ =>
      rcases hinit : pkcs11_init_slot d i0 with ⟨os, evI⟩
      have hos : os = none := by
        have hf := hfail
        rw [show (i0 :: rest).getD 0 0 = i0 from rfl, hinit] at hf
        exact hf
      subst hos
      refine ⟨evs ++ evI, ?_⟩
      simp [enumLoop, hinit, List.append_assoc]
  | succ j ih =>
    intro ids idx acc evs hlen hok hfail
    match ids, hlen with
    | i0 :: rest, hlen' =>
      have h0 : ((pkcs11_init_slot d i0).1).isSome := by
        have h00 := hok 0 (Nat.succ_pos j)
        rwa [show (i0 :: rest).getD 0 0 = i0 from rfl] at h00
      rcases hinit : pkcs11_init_slot d i0 with ⟨os, evI⟩
      rw [hinit] at h0
      cases os with
      | none => simp at h0
      | some s0 =>
        obtain ⟨pre, hp⟩ := ih rest (idx + 1) (acc ++ [s0]) (evs ++ evI)
          (by
            have hl := hlen'
            simp only [List.length_cons] at hl
            omega)
          (fun i hi => by
            have hoki := hok (i + 1) (by omega)
            rwa [show (i0 :: rest).getD (i + 1) 0 = rest.getD i 0 from rfl] at hoki)
          (by
            have hf := hfail
            rwa [show (i0 :: rest).getD (j + 1) 0 = rest.getD j 0 from rfl] at hf)
        refine ⟨pre, ?_⟩
        simp only [enumLoop, hinit]
        rw [hp]
        rw [show idx + 1 + j = idx + (j + 1) from by omega]

/-- Claim C7: slot enumeration is all-or-nothing.  If constructing the
slot at position `j` fails (after `j` successes), the whole enumeration
fails: the `j` previously constructed slots are released in reverse
order of construction, both the id and the slot allocations are freed,
and no partial slot list is surfaced (the result is `err`).  Likewise an
integer overflow while sizing the id allocation fails the enumeration
immediately. -/
theorem claim_C7 :
    (∀ (d : EnumDriver) (szId szSlot : Nat) (j : Nat),
      szId ≠ 0 → szSlot ≠ 0 →
      d.listRv1 = CKR_OK → d.nslots1 * szId < UINT64 →
      d.listRv2 = CKR_OK → d.nslots2 * szSlot < UINT64 →
      j < (d.slotids.take d.nslots2).length →
      (∀ i, i < j →
        ((pkcs11_init_slot d ((d.slotids.take d.nslots2).getD i 0)).1).isSome) →
      (pkcs11_init_slot d ((d.slotids.take d.nslots2).getD j 0)).1 = none →
      ∃ pre, pkcs11_enumerate_slots d szId szSlot =
        .err (pre ++ ((List.range j).reverse.map Ev.releaseSlot) ++
          [Ev.freeSlotIds, Ev.freeSlots])) ∧
    (∀ (d : EnumDriver) (szId szSlot : Nat),
      d.listRv1 = CKR_OK → szId ≠ 0 → UINT64 ≤ d.nslots1 * szId →
      pkcs11_enumerate_slots d szId szSlot = .err []) := by
  constructor
  · intro d szId szSlot j hk1 hk2 hrv1 hov1 hrv2 hov2 hj hok hfail
    obtain ⟨pre, hp⟩ := enumLoop_fail d j (d.slotids.take d.nslots2) 0 [] [] hj hok hfail
    rw [Nat.zero_add] at hp
    refine ⟨pre, ?_⟩
    unfold pkcs11_enumerate_slots
    rw [hrv1, hrv2, checkerr_CKR_OK, sizeOverflow_of_lt _ _ hk1 hov1,
        sizeOverflow_of_lt _ _ hk2 hov2]
    simp [hp]
  · intro d szId szSlot hrv1 hk hge
    unfold pkcs11_enumerate_slots
    rw [hrv1, checkerr_CKR_OK, sizeOverflow_of_ge _ _ hk hge]
    simp

/-- Witness for `claim_C7`: the concrete failing enumeration releases
slot 0 then frees both buffers, and the overflowing count fails the
enumeration outright. -/
theorem claim_C7_witness :
    (∃ pre, pkcs11_enumerate_slots c7_d 8 640 =
      .err (pre ++ ((List.range 1).reverse.map Ev.releaseSlot) ++
        [Ev.freeSlotIds, Ev.freeSlots])) ∧
    pkcs11_enumerate_slots c7b_d 8 640 = .err [] :=
  ⟨claim_C7.1 c7_d 8 640 1 (by decide) (by decide) rfl (by decide) rfl (by decide)
      (by decide) (by decide) (by decide),
   claim_C7.2 c7b_d 8 640 rfl (by decide) (by decide)⟩

/-- Every run of the token check queries the driver's `C_GetTokenInfo`:
the re-snapshot call is present in its trace. -/
lemma check_token_evs_mem (rv : Nat) (s2 : SlotState) :
    Ev.cGetTokenInfo s2.id ∈ (pkcs11_check_token rv s2).2.2 := by
  unfold pkcs11_check_token
  by_cases h1 : rv = CKR_TOKEN_NOT_PRESENT ∨ rv = CKR_TOKEN_NOT_RECOGNIZED
  · simp [h1]
  · by_cases h2 : cryptokiCheckerrFails rv <;> simp [h1, h2]

/-- Unfolding of `pkcs11_init_pin` when the session borrow succeeds. -/
lemma pkcs11_init_pin_ok (d : Driver) (s : SlotState) (pin : Option String)
    (sess : Nat) (s1 : SlotState) (evs1 : List Ev)
    (hg : pkcs11_get_session d s 1 = .ok sess s1 evs1) :
    pkcs11_init_pin d s pin =
      if cryptokiCheckerrFails d.initPinRv then
        .ret (-1, pkcs11_put_session s1 sess, evs1 ++ [Ev.cInitPIN sess pin])
      else
        .ret ((pkcs11_check_token d.tokenInfoRv (pkcs11_put_session s1 sess)).1,
          (pkcs11_check_token d.tokenInfoRv (pkcs11_put_session s1 sess)).2.1,
          evs1 ++ [Ev.cInitPIN sess pin] ++
            (pkcs11_check_token d.tokenInfoRv (pkcs11_put_session s1 sess)).2.2) := by
  unfold pkcs11_init_pin
  rw [hg]

/-- Unfolding of `pkcs11_change_pin` when the session borrow succeeds. -/
lemma pkcs11_change_pin_ok (d : Driver) (s : SlotState) (oldPin newPin : Option String)
    (sess : Nat) (s1 : SlotState) (evs1 : List Ev)
    (hg : pkcs11_get_session d s 1 = .ok sess s1 evs1) :
    pkcs11_change_pin d s oldPin newPin =
      if cryptokiCheckerrFails d.setPinRv then
        .ret (-1, pkcs11_put_session s1 sess, evs1 ++ [Ev.cSetPIN sess oldPin newPin])
      else
        .ret ((pkcs11_check_token d.tokenInfoRv (pkcs11_put_session s1 sess)).1,
          (pkcs11_check_token d.tokenInfoRv (pkcs11_put_session s1 sess)).2.1,
          evs1 ++ [Ev.cSetPIN sess oldPin newPin] ++
            (pkcs11_check_token d.tokenInfoRv (pkcs11_put_session s1 sess)).2.2) := by
  unfold pkcs11_change_pin
  rw [hg]

/-- Counterexample to claim C8 as stated: `pkcs11_init_pin` DOES
re-snapshot the token itself — its final statement is
`return pkcs11_check_token(...)` (src/p11_slot.c:370), so the
`C_GetTokenInfo` re-snapshot query appears in `init_pin`'s own trace
after the `C_InitPIN` call. -/
theorem claim_C8_counterexample :
    pkcs11_init_pin c8_d c8_s none = .ret (0, c8_s2, c8_evs) ∧
      Ev.cGetTokenInfo 9 ∈ c8_evs := by
  refine ⟨by decide, by decide⟩

/-- Claim C8, amended: `init_pin` opens a read-write session (its borrow
requests `rw = 1`, which on an undecided slot opens an RW driver
session), performs its single `C_InitPIN` call, and then — exactly like
`change_pin` after `C_SetPIN` — re-snapshots the token itself via the
token check, whose `C_GetTokenInfo` appears in both functions' traces. -/
theorem claim_C8_amended (d : Driver) (s : SlotState) (pin oldPin newPin : Option String)
    (sess : Nat) (s1 : SlotState) (evs1 : List Ev)
    (hg : pkcs11_get_session d s 1 = .ok sess s1 evs1)
    (hrvI : d.initPinRv = CKR_OK) (hrvS : d.setPinRv = CKR_OK) :
    pkcs11_init_pin d s pin =
        .ret ((pkcs11_check_token d.tokenInfoRv (pkcs11_put_session s1 sess)).1,
          (pkcs11_check_token d.tokenInfoRv (pkcs11_put_session s1 sess)).2.1,
          evs1 ++ [Ev.cInitPIN sess pin] ++
            (pkcs11_check_token d.tokenInfoRv (pkcs11_put_session s1 sess)).2.2) ∧
      Ev.cGetTokenInfo (pkcs11_put_session s1 sess).id ∈
        evs1 ++ [Ev.cInitPIN sess pin] ++
          (pkcs11_check_token d.tokenInfoRv (pkcs11_put_session s1 sess)).2.2 ∧
      pkcs11_change_pin d s oldPin newPin =
        .ret ((pkcs11_check_token d.tokenInfoRv (pkcs11_put_session s1 sess)).1,
          (pkcs11_check_token d.tokenInfoRv (pkcs11_put_session s1 sess)).2.1,
          evs1 ++ [Ev.cSetPIN sess oldPin newPin] ++
            (pkcs11_check_token d.tokenInfoRv (pkcs11_put_session s1 sess)).2.2) ∧
      Ev.cGetTokenInfo (pkcs11_put_session s1 sess).id ∈
        evs1 ++ [Ev.cSetPIN sess oldPin newPin] ++
          (pkcs11_check_token d.tokenInfoRv (pkcs11_put_session s1 sess)).2.2 ∧
      (∀ s0 : SlotState, s0.rw_mode < 0 → s0.session_head = s0.session_tail →
        s0.num_sessions < s0.max_sessions → d.openRv = CKR_OK →
        pkcs11_get_session d s0 1 =
          .ok d.openHandle { gsFix s0 1 with num_sessions := s0.num_sessions + 1 }
            [Ev.openSession s0.id true]) := by
  have hcI : cryptokiCheckerrFails d.initPinRv = false := by
    simp [cryptokiCheckerrFails, hrvI]
  have hcS : cryptokiCheckerrFails d.setPinRv = false := by
    simp [cryptokiCheckerrFails, hrvS]
  refine ⟨?_, ?_, ?_, ?_, ?_⟩
  · rw [pkcs11_init_pin_ok d s pin sess s1 evs1 hg, hcI]
    simp
  · simp [List.mem_append, check_token_evs_mem]
  · rw [pkcs11_change_pin_ok d s oldPin newPin sess s1 evs1 hg, hcS]
    simp
  · simp [List.mem_append, check_token_evs_mem]
  · intro s0 h1 h2 h3 h4
    unfold pkcs11_get_session gsBody
    rw [if_neg (by norm_num)]
    rw [if_neg (by rw [gsFix_head, gsFix_tail]; simpa using h2)]
    rw [if_pos (by rw [gsFix_num, gsFix_max]; exact h3)]
    rw [if_pos h4]
    have hrwm : (gsFix s0 1).rw_mode = 1 := by rw [gsFix_rw_mode, if_pos h1]
    simp [gsFix_num, gsFix_id, hrwm]

/-- Witness for `claim_C8_amended` at the concrete `claim_C8` inputs,
with the read-write-open conjunct instantiated on a concrete undecided
slot. -/
theorem claim_C8_witness :
    pkcs11_init_pin c8_d c8_s none =
        .ret ((pkcs11_check_token c8_d.tokenInfoRv (pkcs11_put_session c8_s1 5)).1,
          (pkcs11_check_token c8_d.tokenInfoRv (pkcs11_put_session c8_s1 5)).2.1,
          [Ev.openSession 9 true] ++ [Ev.cInitPIN 5 none] ++
            (pkcs11_check_token c8_d.tokenInfoRv (pkcs11_put_session c8_s1 5)).2.2) ∧
      Ev.cGetTokenInfo (pkcs11_put_session c8_s1 5).id ∈
        [Ev.openSession 9 true] ++ [Ev.cInitPIN 5 none] ++
          (pkcs11_check_token c8_d.tokenInfoRv (pkcs11_put_session c8_s1 5)).2.2 ∧
      pkcs11_change_pin c8_d c8_s (some "1234") (some "5678") =
        .ret ((pkcs11_check_token c8_d.tokenInfoRv (pkcs11_put_session c8_s1 5)).1,
          (pkcs11_check_token c8_d.tokenInfoRv (pkcs11_put_session c8_s1 5)).2.1,
          [Ev.openSession 9 true] ++ [Ev.cSetPIN 5 (some "1234") (some "5678")] ++
            (pkcs11_check_token c8_d.tokenInfoRv (pkcs11_put_session c8_s1 5)).2.2) ∧
      Ev.cGetTokenInfo (pkcs11_put_session c8_s1 5).id ∈
        [Ev.openSession 9 true] ++ [Ev.cSetPIN 5 (some "1234") (some "5678")] ++
          (pkcs11_check_token c8_d.tokenInfoRv (pkcs11_put_session c8_s1 5)).2.2 ∧
      pkcs11_get_session c8_d c3_s0 1 =
        .ok c8_d.openHandle { gsFix c3_s0 1 with num_sessions := c3_s0.num_sessions + 1 }
          [Ev.openSession c3_s0.id true] := by
  have h := claim_C8_amended c8_d c8_s none (some "1234") (some "5678") 5 c8_s1
    [Ev.openSession 9 true] (by decide) rfl rfl
  exact ⟨h.1, h.2.1, h.2.2.1, h.2.2.2.1,
    h.2.2.2.2 c3_s0 (by decide) rfl (by decide) rfl⟩
